import Mathlib

/-!
Shallow embedding of the adapter registry, account-config validator and
account store of `olivos-cli` (modules `core/adapters.py`,
`core/validation.py`, `olivos/__init__.py`, `models/__init__.py`).

Account records reaching the validator are plain Python dicts whose values
are strings, ints, bools, `None` or nested dicts; we embed them as `PyVal`.
Dict order is insertion order, as in Python.  Operations that can raise in
Python (`obj[key]` on a non-dict, `x in obj` on a non-container,
`obj.get(...)` on a non-dict) are embedded in `Except PyErr`.

String primitives (`split`, substring `in`, `str()` of an int) are defined
structurally over `List Char` so that every definition evaluates inside the
kernel; they implement exactly the Python semantics the source relies on.
-/

/-- Does `pre` occur at the start of `l`?  (Helper for Python substring `in`.) -/
def startsWithChars : List Char → List Char → Bool
  | [], _ => true
  | _ :: _, [] => false
  | a :: as, b :: bs => a == b && startsWithChars as bs

/-- Does `needle` occur somewhere in `hay`?  (Python `needle in hay` on strings;
the empty needle is contained in everything, as in Python.) -/
def hasSubstringChars (needle : List Char) : List Char → Bool
  | [] => startsWithChars needle []
  | b :: bs => startsWithChars needle (b :: bs) || hasSubstringChars needle bs

/-- Python `needle in hay` for strings. -/
def strContains (hay needle : String) : Bool :=
  hasSubstringChars needle.data hay.data

/-- Accumulator pass of `pySplitOnChar` (`acc` holds the current segment reversed). -/
def splitOnCharAux (sep : Char) : List Char → List Char → List String
  | acc, [] => [acc.reverse.asString]
  | acc, c :: rest =>
      if c == sep then acc.reverse.asString :: splitOnCharAux sep [] rest
      else splitOnCharAux sep (c :: acc) rest

/-- Python `s.split(sep)` for a single-character separator:
`"a.b".split(".") = ["a","b"]`, `"".split(".") = [""]`. -/
def pySplitOnChar (s : String) (sep : Char) : List String :=
  splitOnCharAux sep [] s.data

/-- Decimal digits of a natural number, most significant first
(`fuel` bounds the recursion; `fuel = n + 1` always suffices). -/
def natDecimalAux : Nat → Nat → List Char
  | 0, _ => []
  | fuel + 1, n =>
      if n < 10 then [Char.ofNat (48 + n)]
      else natDecimalAux fuel (n / 10) ++ [Char.ofNat (48 + n % 10)]

/-- Python `str(n)` for an int. -/
def pyIntStr (n : Int) : String :=
  if n < 0 then "-" ++ (natDecimalAux (n.natAbs + 1) n.natAbs).asString
  else (natDecimalAux (n.toNat + 1) n.toNat).asString

/-- A Python value as it appears in an account-configuration dict. -/
inductive PyVal where
  | str (s : String)
  | int (n : Int)
  | bool (b : Bool)
  | none
  | dict (entries : List (String × PyVal))

mutual

/-- Python `repr` restricted to the values above (strings single-quoted). -/
def pyRepr : PyVal → String
  | .str s => "\x27" ++ s ++ "\x27"
  | .int n => pyIntStr n
  | .bool true => "True"
  | .bool false => "False"
  | .none => "None"
  | .dict l => "\x7b" ++ pyReprEntries l ++ "\x7d"

/-- `repr` of the comma-separated entries of a dict. -/
def pyReprEntries : List (String × PyVal) → String
  | [] => ""
  | [(k, v)] => "\x27" ++ k ++ "\x27: " ++ pyRepr v
  | (k, v) :: e :: rest =>
      "\x27" ++ k ++ "\x27: " ++ pyRepr v ++ ", " ++ pyReprEntries (e :: rest)

end

/-- Python `str(...)` on a `PyVal`. -/
def pyStr : PyVal → String
  | .str s => s
  | v => pyRepr v

/-- Python truthiness of a value (`bool(v)`). -/
def pyTruthy : PyVal → Bool
  | .str s => !(s == "")
  | .int n => !(n == 0)
  | .bool b => b
  | .none => false
  | .dict l => !l.isEmpty

/-- Python `v == lit` for a string literal `lit` (cross-type `==` is `False`). -/
def pyEqStr : PyVal → String → Bool
  | .str a, b => a == b
  | _, _ => false

/-- Truthiness of the result of a Python `dict.get(k)` (absent key gives `None`). -/
def optTruthy : Option PyVal → Bool
  | some v => pyTruthy v
  | Option.none => false

/-- Python `o == lit` where `o` is the result of `dict.get` (may be `None`). -/
def optEqStr : Option PyVal → String → Bool
  | some v, s => pyEqStr v s
  | Option.none, _ => false

/-- Python `o is False` where `o` is the result of `dict.get`. -/
def optIsFalse : Option PyVal → Bool
  | some (.bool false) => true
  | _ => false

/-- First-match key lookup in a dict (Python dict keys are unique). -/
def dictGet (l : List (String × PyVal)) (k : String) : Option PyVal :=
  l.lookup k

/-- Python `dict.get(k, default)`. -/
def dictGetD (l : List (String × PyVal)) (k : String) (d : PyVal) : PyVal :=
  (l.lookup k).getD d

/-- Python `k in dict`. -/
def dictContainsKey (l : List (String × PyVal)) (k : String) : Bool :=
  (l.lookup k).isSome

/-- The exceptions the embedded code can raise. -/
inductive PyErr where
  | typeError
  | keyError
  | attributeError
deriving DecidableEq, Repr

/-- Python membership `k in obj` for an arbitrary value: key test on dicts,
substring test on strings, `TypeError` on non-containers. -/
def pyContains : PyVal → String → Except PyErr Bool
  | .dict l, k => .ok (dictContainsKey l k)
  | .str s, k => .ok (strContains s k)
  | _, _ => .error .typeError

/-- Python subscription `obj[k]` with a string key: dict lookup
(`KeyError` when absent), `TypeError` on any non-dict. -/
def pyGetItem : PyVal → String → Except PyErr PyVal
  | .dict l, k =>
      match l.lookup k with
      | some v => .ok v
      | Option.none => .error .keyError
  | _, _ => .error .typeError

/-! ## Adapter registry (`core/adapters.py`) -/

/-- Server connection type (`ServerType` enum). -/
inductive ServerType where
  | post
  | websocket
deriving DecidableEq, Repr

/-- The string value of a `ServerType` member (`.value` on the Python enum). -/
def ServerType.value : ServerType → String
  | .post => "post"
  | .websocket => "websocket"

/-- An adapter specification (`AdapterConfig` dataclass). -/
structure AdapterConfig where
  name : String
  key : String
  platform_type : String
  sdk_type : String
  model_type : String := "default"
  server_auto : Bool := true
  server_type : ServerType := .post
  required_fields : List String := []
  optional_fields : List String := []
  model_type_options : List (String × String) := []
  extends_options : List (String × List (String × String)) := []
  description : String := ""
  help_text : String := ""
deriving DecidableEq, Repr

def ONEBOTV11_MODEL_TYPES : List (String × String) :=
  [("default", "默认模式"),
   ("napcat", "NapCat"),
   ("napcat_hide", "NapCat (隐藏)"),
   ("napcat_show", "NapCat (显示)"),
   ("napcat_show_new", "NapCat (新版)"),
   ("napcat_show_old", "NapCat (旧版)"),
   ("napcat_default", "NapCat (默认)"),
   ("shamrock_default", "Shamrock (默认)"),
   ("para_default", "Para 消息模式"),
   ("gocqhttp_show", "GoCqHttp"),
   ("gocqhttp_show_Android_Phone", "GoCqHttp (安卓手机)"),
   ("gocqhttp_show_Android_Pad", "GoCqHttp (安卓平板)"),
   ("gocqhttp_show_Android_Watch", "GoCqHttp (安卓手表)"),
   ("gocqhttp_show_iPad", "GoCqHttp (iPad)"),
   ("gocqhttp_show_iMac", "GoCqHttp (iMac)"),
   ("gocqhttp_show_old", "GoCqHttp (旧版)"),
   ("walleq_show", "WalleQ"),
   ("walleq_show_Android_Phone", "WalleQ (安卓手机)"),
   ("walleq_show_Android_Pad", "WalleQ (安卓平板)"),
   ("walleq_show_Android_Watch", "WalleQ (安卓手表)"),
   ("walleq_show_iPad", "WalleQ (iPad)"),
   ("walleq_show_iMac", "WalleQ (iMac)"),
   ("walleq_show_old", "WalleQ (旧版)"),
   ("llonebot_default", "LLOneBot"),
   ("lagrange_default", "Lagrange")]

def ONEBOTV12_MODEL_TYPES : List (String × String) :=
  [("onebotV12", "OneBot 12")]

def QQGUILD_MODEL_TYPES : List (String × String) :=
  [("default", "QQ 频道 V1"),
   ("public", "QQ 频道 V1 (公域)"),
   ("private", "QQ 频道 V1 (私域)")]

def QQGUILV2_MODEL_TYPES : List (String × String) :=
  [("default", "QQ 频道 V2"),
   ("public", "QQ 频道 V2 (公域)"),
   ("public_guild_only", "QQ 频道 V2 (纯频道)"),
   ("public_intents", "QQ 频道 V2 (指定intents)"),
   ("private", "QQ 频道 V2 (私域)"),
   ("private_intents", "QQ 频道 V2 (私域+intents)")]

def OPQBOT_MODEL_TYPES : List (String × String) :=
  [("opqbot_default", "OPQBot (默认)"),
   ("opqbot_port", "OPQBot (指定端口)"),
   ("opqbot_port_old", "OPQBot (指定端口/旧)")]

def RED_MODEL_TYPES : List (String × String) :=
  [("red", "RED 协议")]

def TELEGRAM_MODEL_TYPES : List (String × String) :=
  [("default", "Telegram Bot")]

def DISCORD_MODEL_TYPES : List (String × String) :=
  [("default", "Discord Bot")]

def KAIHEILA_MODEL_TYPES : List (String × String) :=
  [("default", "KOOK"),
   ("text", "KOOK (消息兼容)")]

def DINGTALK_MODEL_TYPES : List (String × String) :=
  [("default", "钉钉开放平台")]

def BILILIVE_MODEL_TYPES : List (String × String) :=
  [("default", "游客模式"),
   ("login", "登录模式")]

def MHYVILA_MODEL_TYPES : List (String × String) :=
  [("default", "米游社大别野"),
   ("public", "公域"),
   ("private", "私域")]

def DODO_MODEL_TYPES : List (String × String) :=
  [("default", "Dodo V2"),
   ("v1", "Dodo V1")]

def FANBOOK_MODEL_TYPES : List (String × String) :=
  [("default", "Fanbook 开放平台")]

def HACKCHAT_MODEL_TYPES : List (String × String) :=
  [("default", "Hack.Chat"),
   ("private", "Hack.Chat (私有)")]

def XIAOHEIHE_MODEL_TYPES : List (String × String) :=
  [("default", "小黑盒开放平台")]

def VIRTUAL_TERMINAL_MODEL_TYPES : List (String × String) :=
  [("default", "虚拟终端"),
   ("postapi", "HTTP 接口终端"),
   ("ff14", "FF14 终端")]

/-- The adapter catalog (`ALL_ADAPTERS` dict literal, in declaration order). -/
def ALL_ADAPTERS : List (String × AdapterConfig) :=
  [("onebotV11",
    { name := "OneBot V11 (QQ)", key := "onebotV11",
      platform_type := "qq", sdk_type := "onebot", model_type := "default",
      server_auto := true, server_type := .post,
      required_fields := ["id"],
      optional_fields := ["password", "server.access_token"],
      model_type_options := ONEBOTV11_MODEL_TYPES,
      description := "OneBot 11 协议适配器",
      help_text := "支持 NapCat、GoCqHttp、WalleQ、Shamrock、LLOneBot、Lagrange 等实现" }),
   ("onebotV12",
    { name := "OneBot V12 (QQ)", key := "onebotV12",
      platform_type := "qq", sdk_type := "onebot", model_type := "onebotV12",
      server_auto := false, server_type := .websocket,
      required_fields := ["id", "server.host", "server.port"],
      optional_fields := ["server.access_token"],
      model_type_options := ONEBOTV12_MODEL_TYPES,
      description := "OneBot 12 协议适配器",
      help_text := "适用于 Walle-Q、ComWeChatBot 等" }),
   ("qqGuild",
    { name := "QQ 频道", key := "qqGuild",
      platform_type := "qqGuild", sdk_type := "qqGuild_link", model_type := "default",
      server_auto := true, server_type := .websocket,
      required_fields := ["id", "server.access_token"],
      optional_fields := ["password"],
      model_type_options := QQGUILD_MODEL_TYPES,
      description := "QQ 频道开放平台",
      help_text := "V1 版本接口" }),
   ("qqGuildV2",
    { name := "QQ 频道 V2", key := "qqGuildV2",
      platform_type := "qqGuild", sdk_type := "qqGuildv2_link", model_type := "default",
      server_auto := true, server_type := .websocket,
      required_fields := ["id", "server.access_token"],
      optional_fields := ["password"],
      model_type_options := QQGUILV2_MODEL_TYPES,
      description := "QQ 频道开放平台 V2",
      help_text := "V2 版本接口，支持 QQ 群官方机器人" }),
   ("OPQBot",
    { name := "OPQBot (QQ)", key := "OPQBot",
      platform_type := "qq", sdk_type := "onebot", model_type := "opqbot_default",
      server_auto := true, server_type := .websocket,
      required_fields := ["id", "password"],
      model_type_options := OPQBOT_MODEL_TYPES,
      description := "OPQBot 远程协议端",
      help_text := "注意：需要向 OPQ 官方申请 Token，账号存在安全风险" }),
   ("red",
    { name := "RED 协议 (QQ)", key := "red",
      platform_type := "qq", sdk_type := "onebot", model_type := "red",
      server_auto := false, server_type := .websocket,
      required_fields := ["id", "server.host", "server.port", "server.access_token"],
      optional_fields := ["extends.http-path"],
      model_type_options := RED_MODEL_TYPES,
      extends_options := [("http-path", [("type", "string"), ("description", "HTTP 地址")])],
      description := "Chronocat RED 协议",
      help_text := "注意：Chronocat 已停止维护" }),
   ("telegram",
    { name := "Telegram", key := "telegram",
      platform_type := "telegram", sdk_type := "telegram_poll", model_type := "default",
      server_auto := true, server_type := .post,
      required_fields := ["id", "server.access_token"],
      model_type_options := TELEGRAM_MODEL_TYPES,
      description := "Telegram Bot",
      help_text := "通过 @botfather 创建机器人，格式: id:token" }),
   ("discord",
    { name := "Discord", key := "discord",
      platform_type := "discord", sdk_type := "discord_link", model_type := "default",
      server_auto := true, server_type := .websocket,
      required_fields := ["server.access_token"],
      optional_fields := ["id"],
      model_type_options := DISCORD_MODEL_TYPES,
      description := "Discord Bot",
      help_text := "从 Discord 开发者平台获取 Token" }),
   ("kaiheila",
    { name := "KOOK", key := "kaiheila",
      platform_type := "kaiheila", sdk_type := "kaiheila_link", model_type := "default",
      server_auto := true, server_type := .websocket,
      required_fields := ["server.access_token"],
      model_type_options := KAIHEILA_MODEL_TYPES,
      description := "KOOK 开放平台",
      help_text := "消息兼容模式以纯文本发送，可解决权限问题" }),
   ("dingtalk",
    { name := "钉钉", key := "dingtalk",
      platform_type := "dingtalk", sdk_type := "dingtalk_link", model_type := "default",
      server_auto := true, server_type := .websocket,
      required_fields := ["id"],
      model_type_options := DINGTALK_MODEL_TYPES,
      description := "钉钉开放平台",
      help_text := "id 为机器人账号的 Robot Code" }),
   ("biliLive",
    { name := "B站直播间", key := "biliLive",
      platform_type := "biliLive", sdk_type := "biliLive_link", model_type := "default",
      server_auto := true, server_type := .websocket,
      required_fields := ["server.access_token"],
      model_type_options := BILILIVE_MODEL_TYPES,
      description := "B站直播间弹幕系统",
      help_text := "游客模式只能浏览，登录模式可发送消息" }),
   ("mhyVila",
    { name := "米游社大别野", key := "mhyVila",
      platform_type := "mhyVila", sdk_type := "mhyVila_link", model_type := "default",
      server_auto := true, server_type := .websocket,
      required_fields := ["id", "password", "server.access_token"],
      optional_fields := ["server.port"],
      model_type_options := MHYVILA_MODEL_TYPES,
      description := "米游社大别野开放平台",
      help_text := "server.port 仅沙盒模式需要填写别野号" }),
   ("dodo",
    { name := "Dodo", key := "dodo",
      platform_type := "dodo", sdk_type := "dodo_link", model_type := "default",
      server_auto := true, server_type := .websocket,
      required_fields := ["id", "server.access_token"],
      model_type_options := DODO_MODEL_TYPES,
      description := "Dodo 开放平台",
      help_text := "提供 V1、V2 两个版本的接口" }),
   ("fanbook",
    { name := "Fanbook", key := "fanbook",
      platform_type := "fanbook", sdk_type := "fanbook_poll", model_type := "default",
      server_auto := true, server_type := .post,
      required_fields := ["server.access_token"],
      model_type_options := FANBOOK_MODEL_TYPES,
      description := "Fanbook 开放平台",
      help_text := "从 Fanbook 获取 Token" }),
   ("hackChat",
    { name := "Hack.Chat", key := "hackChat",
      platform_type := "hackChat", sdk_type := "hackChat_link", model_type := "default",
      server_auto := true, server_type := .websocket,
      required_fields := ["id", "server.access_token", "password"],
      optional_fields := ["extends.ws_path"],
      model_type_options := HACKCHAT_MODEL_TYPES,
      extends_options := [("ws_path", [("type", "string"), ("description", "私有 Websocket 服务器地址")])],
      description := "Hack.Chat 聊天协议",
      help_text := "id 为房间名称，server.access_token 为 Bot 名称" }),
   ("xiaoheihe",
    { name := "小黑盒", key := "xiaoheihe",
      platform_type := "xiaoheihe", sdk_type := "xiaoheihe_link", model_type := "default",
      server_auto := true, server_type := .websocket,
      required_fields := ["server.access_token"],
      model_type_options := XIAOHEIHE_MODEL_TYPES,
      description := "小黑盒开放平台",
      help_text := "从小黑盒获取 Token" }),
   ("virtualTerminal",
    { name := "虚拟终端", key := "virtualTerminal",
      platform_type := "terminal", sdk_type := "terminal_link", model_type := "default",
      server_auto := true, server_type := .websocket,
      required_fields := ["id"],
      model_type_options := VIRTUAL_TERMINAL_MODEL_TYPES,
      description := "虚拟聊天终端",
      help_text := "用于插件调试和测试" })]

/-- `get_adapter_config(key)`: `ALL_ADAPTERS.get(key)`. -/
def get_adapter_config (key : String) : Option AdapterConfig :=
  (ALL_ADAPTERS.lookup key)

/-- First spec in a catalog whose (platform, sdk, model) triple equals the
query; the query components come from an account record, so they are
arbitrary Python values compared against the spec's strings. -/
def findByTriple : List (String × AdapterConfig) → PyVal → PyVal → PyVal → Option AdapterConfig
  | [], _, _, _ => Option.none
  | (_, config) :: rest, platform, sdk, model =>
      if pyEqStr platform config.platform_type && pyEqStr sdk config.sdk_type &&
         pyEqStr model config.model_type then
        some config
      else findByTriple rest platform sdk model

/-- `get_adapter_by_platform_sdk(platform, sdk, model)`: linear scan of
`ALL_ADAPTERS.values()` returning the first match. -/
def get_adapter_by_platform_sdk (platform sdk model : String) : Option AdapterConfig :=
  findByTriple ALL_ADAPTERS (.str platform) (.str sdk) (.str model)

/-- Python dict-literal construction semantics: a later duplicate key
overwrites the value at the first occurrence's position; construction
never fails. -/
def pyDictLit : List (String × AdapterConfig) → List (String × AdapterConfig)
  | [] => []
  | (k, v) :: rest =>
      let rest' := pyDictLit rest
      match rest'.lookup k with
      | some v' => (k, v') :: (rest'.filter (fun p => !(p.1 == k)))
      | Option.none => (k, v) :: rest'

/-! ## Validator (`core/validation.py`) -/

/-- Validation verdict (`ValidationResult` dataclass). -/
structure ValidationResult where
  valid : Bool
  errors : List String := []
  warnings : List String := []
deriving DecidableEq, Repr

/-- `ValidationResult.add_error`: append the message and force `valid = False`. -/
def ValidationResult.add_error (r : ValidationResult) (message : String) : ValidationResult :=
  { r with errors := r.errors ++ [message], valid := false }

/-- `ValidationResult.add_warning`: append the message, `valid` unchanged. -/
def ValidationResult.add_warning (r : ValidationResult) (message : String) : ValidationResult :=
  { r with warnings := r.warnings ++ [message] }

/-- Outcome of the `for i, part in enumerate(parts)` walk over a dotted
required field: the loop either breaks at a missing final component (after
`add_error`), breaks silently at a missing non-final component, or runs to
completion with `obj` bound to the value of the last component. -/
inductive WalkRes where
  | errStop
  | silentStop
  | done (leaf : PyVal)

/-- The walk itself.  `i` is the loop index and `total` is `len(parts)`;
each step first evaluates `part not in obj` (which may raise `TypeError`
on a non-container) and then `obj = obj[part]`. -/
def walkLoop : PyVal → List String → Nat → Nat → Except PyErr WalkRes
  | obj, [], _, _ => .ok (.done obj)
  | obj, part :: rest, i, total => do
      let c ← pyContains obj part
      if c then do
        let v ← pyGetItem obj part
        walkLoop v rest (i + 1) total
      else
        if i == total - 1 then pure .errStop else pure .silentStop

/-- One iteration of the `for field in adapter.required_fields` loop of
`_validate_with_adapter`.  For a dotted field the source walks the whole
path (descending **into** the leaf value) and, when the walk completes,
evaluates `obj[parts[-1]] == ""` — a subscription of the leaf value itself,
which raises `TypeError` whenever the leaf is a scalar. -/
def checkRequiredField (account_data : List (String × PyVal)) (adapter : AdapterConfig)
    (f : String) (r : ValidationResult) : Except PyErr ValidationResult :=
  if strContains f "." then do
    let parts := pySplitOnChar f '.'
    match ← walkLoop (.dict account_data) parts 0 parts.length with
    | .errStop => pure (r.add_error ("缺少必填字段: " ++ f))
    | .silentStop => pure r
    | .done leaf => do
        let v ← pyGetItem leaf (parts.getLastD "")
        if pyEqStr v "" && !(adapter.optional_fields.contains f) then
          pure (r.add_warning ("字段 " ++ f ++ " 建议填写"))
        else pure r
  else
    match account_data.lookup f with
    | Option.none => pure (r.add_error ("缺少必填字段: " ++ f))
    | some v =>
        if pyEqStr v "" && !(adapter.optional_fields.contains f) then
          pure (r.add_warning ("字段 " ++ f ++ " 建议填写"))
        else pure r

/-- The full `for field in adapter.required_fields` loop. -/
def checkRequiredFields (account_data : List (String × PyVal)) (adapter : AdapterConfig) :
    List String → ValidationResult → Except PyErr ValidationResult
  | [], r => pure r
  | f :: rest, r => do
      let r' ← checkRequiredField account_data adapter f r
      checkRequiredFields account_data adapter rest r'

/-- The `# 检查 server 配置` block of `_validate_with_adapter`.  Record
values are plain data, so `hasattr(server, 'to_dict')` is false; calling
`.get` on a truthy non-dict raises `AttributeError`. -/
def checkServerBlock (account_data : List (String × PyVal)) (adapter : AdapterConfig)
    (r : ValidationResult) : Except PyErr ValidationResult :=
  match account_data.lookup "server" with
  | some sv =>
      if pyTruthy sv then do
        let server ← (match sv with
          | .dict l => Except.ok l
          | _ => Except.error PyErr.attributeError)
        let server_type := dictGetD server "type" (.str adapter.server_type.value)
        let r1 :=
          if pyEqStr server_type "websocket" then
            if !(optTruthy (server.lookup "host")) && !(optTruthy (server.lookup "url")) then
              if adapter.server_auto then r
              else r.add_error "WebSocket 类型需要 server.host 或 server.url"
            else r
          else r
        let r2 :=
          if pyEqStr server_type "post" then
            if !adapter.server_auto then
              let ra := if !(optTruthy (server.lookup "host")) then
                  r1.add_error "POST 类型需要 server.host" else r1
              if !(optTruthy (server.lookup "port")) then
                ra.add_error "POST 类型需要 server.port" else ra
            else r1
          else r1
        pure r2
      else pure r
  | Option.none => pure r

/-- `_validate_special_rules(account_data, adapter, result)`. -/
def validate_special_rules (account_data : List (String × PyVal)) (adapter : AdapterConfig)
    (r : ValidationResult) : Except PyErr ValidationResult := do
  let r1 :=
    if adapter.key == "telegram" then
      let id_val := pyStr (dictGetD account_data "id" (.str ""))
      if !(strContains id_val ":") then
        r.add_warning "Telegram token 格式通常为 id:token"
      else r
    else r
  let r2 ←
    if adapter.key == "qqguild_v2" then do
      let model := dictGetD account_data "model_type" (.str "")
      let c ← pyContains model "intents"
      if c then
        if !(dictContainsKey account_data "extends") then
          pure (r1.add_warning "指定 intents 模式需要在 extends 中配置 intents 字段")
        else do
          let c2 ← pyContains (dictGetD account_data "extends" (.dict [])) "intents"
          if !c2 then
            pure (r1.add_warning "指定 intents 模式需要在 extends 中配置 intents 字段")
          else pure r1
      else pure r1
    else pure r1
  let r3 ←
    if adapter.key == "mhyvila" then
      let model := dictGetD account_data "model_type" (.str "")
      if pyEqStr model "sandbox" then
        if !(dictContainsKey account_data "server") then
          pure (r2.add_error "沙盒模式需要填写 server.port (别野号)")
        else
          match dictGetD account_data "server" .none with
          | .dict l =>
              if !(optTruthy (l.lookup "port")) then
                pure (r2.add_error "沙盒模式需要填写 server.port (别野号)")
              else pure r2
          | _ => Except.error PyErr.attributeError
      else pure r2
    else pure r2
  let r4 :=
    if adapter.key == "bililive" then
      let model := dictGetD account_data "model_type" (.str "")
      if pyEqStr model "default" then
        r3.add_warning "游客模式只能浏览弹幕，不能发送消息"
      else r3
    else r3
  pure r4

/-- `_validate_with_adapter(account_data, adapter)`: a **fresh**
`ValidationResult(valid=True)`, required-field checks, server-shape checks,
then the special per-adapter rules. -/
def validate_with_adapter (account_data : List (String × PyVal)) (adapter : AdapterConfig) :
    Except PyErr ValidationResult := do
  let r0 : ValidationResult := { valid := true }
  let r1 ← checkRequiredFields account_data adapter adapter.required_fields r0
  let r2 ← checkServerBlock account_data adapter r1
  validate_special_rules account_data adapter r2

/-- `_validate_basic(account_data, result)`: structural server checks only,
appended to the result accumulated by the base field checks. -/
def validate_basic (account_data : List (String × PyVal)) (r : ValidationResult) :
    Except PyErr ValidationResult :=
  match account_data.lookup "server" with
  | some sv =>
      if pyTruthy sv then do
        let c ← pyContains sv "type"
        let r1 := if !c then r.add_error "server 缺少 type 字段" else r
        let server ← (match sv with
          | .dict l => Except.ok l
          | _ => Except.error PyErr.attributeError)
        let r2 :=
          if optIsFalse (server.lookup "auto") then
            let ra := if !(optTruthy (server.lookup "host")) && !(optTruthy (server.lookup "url")) then
                r1.add_warning "非自动模式建议配置 server.host 或 server.url" else r1
            if optEqStr (server.lookup "type") "post" && !(optTruthy (server.lookup "port")) then
              ra.add_warning "POST 类型建议配置 server.port"
            else ra
          else r1
        pure r2
      else pure r
  | Option.none => pure r

/-- `validate_account_config(account_data, adapter_key)`.

The function first runs the base field checks, then **mutates its argument**
(`account_data["model_type"] = "default"` when the key is absent — a new
Python dict key is appended at the end), and finally either delegates to
`_validate_with_adapter` (explicit key, or implicit (platform, sdk, model)
resolution — in both cases the base result is discarded) or falls back to
`_validate_basic`.  We return the mutated dict together with the verdict;
the mutation happens before any statement that can raise, so the caller
observes it even when the verdict is an exception. -/
def validate_account_config (account_data : List (String × PyVal))
    (adapter_key : Option String) :
    List (String × PyVal) × Except PyErr ValidationResult :=
  let r0 : ValidationResult := { valid := true }
  let r1 := if !(optTruthy (account_data.lookup "id")) then
      r0.add_error "缺少必填字段: id" else r0
  let r2 := if !(optTruthy (account_data.lookup "platform_type")) then
      r1.add_error "缺少必填字段: platform_type" else r1
  let r3 := if !(optTruthy (account_data.lookup "sdk_type")) then
      r2.add_error "缺少必填字段: sdk_type" else r2
  let data' := if dictContainsKey account_data "model_type" then account_data
      else account_data ++ [("model_type", .str "default")]
  -- `if adapter_key:` — the empty string is falsy, so it skips this branch
  let viaKey : Option AdapterConfig :=
    match adapter_key with
    | some k => if k == "" then Option.none else get_adapter_config k
    | Option.none => Option.none
  let verdict : Except PyErr ValidationResult :=
    match viaKey with
    | some adapter => validate_with_adapter data' adapter
    | Option.none =>
        let platform := dictGetD data' "platform_type" (.str "")
        let sdk := dictGetD data' "sdk_type" (.str "")
        let model := dictGetD data' "model_type" (.str "default")
        match findByTriple ALL_ADAPTERS platform sdk model with
        | some adapter => validate_with_adapter data' adapter
        | Option.none => validate_basic data' r3
  (data', verdict)

/-! ## Account store (`models/__init__.py`, `olivos/__init__.py`) -/

/-- The `id: int | str` field of the `Account` dataclass. -/
inductive AccId where
  | int (n : Int)
  | str (s : String)
deriving DecidableEq, Repr

/-- Python `str(...)` on an account id. -/
def AccId.pyStr : AccId → String
  | .int n => pyIntStr n
  | .str s => s

/-- The `AccountServer` dataclass with its field defaults. -/
structure AccountServer where
  auto : Bool := true
  type : String := "post"
  host : String := "127.0.0.1"
  port : Int := 57000
  access_token : String := ""
  url : String := ""
deriving DecidableEq, Repr

/-- The `Account` dataclass (the Python field `extends` is a Lean keyword,
so it is embedded as `extends_dict`). -/
structure Account where
  id : AccId
  password : String
  sdk_type : String
  platform_type : String
  model_type : String := "default"
  extends_dict : List (String × PyVal) := []
  debug : Bool := false
  server : AccountServer := {}

/-- The duplicate test of `OlivOSConfigManager.add_account`: an existing
record conflicts when it agrees with the candidate on `str(id)`,
`platform_type`, `sdk_type` and `model_type`. -/
def isConflict (existing account : Account) : Bool :=
  existing.id.pyStr == account.id.pyStr &&
  existing.platform_type == account.platform_type &&
  existing.sdk_type == account.sdk_type &&
  existing.model_type == account.model_type

/-- `OlivOSConfigManager.add_account`, with the persisted collection made
explicit: on a conflict the `OlivOSConfigError` carries the formatted
message and nothing is written; otherwise the record is appended at the end
and the whole collection persisted. -/
def add_account (accounts : List Account) (account : Account) :
    Except String (List Account) :=
  if accounts.any (fun existing => isConflict existing account) then
    .error ("账号已存在: " ++ account.id.pyStr ++ " (适配器: " ++
      account.platform_type ++ "/" ++ account.sdk_type ++ "/" ++
      account.model_type ++ ")")
  else
    .ok (accounts ++ [account])

/-- The per-record condition of the list comprehension in
`OlivOSConfigManager.remove_account`: a record is dropped when
`str(acc.id) == str(account_id) and (sdk_type is None or acc.sdk_type == sdk_type)`. -/
def removeMatch (account_id : AccId) (sdk_type : Option String) (acc : Account) : Bool :=
  acc.id.pyStr == account_id.pyStr &&
  (match sdk_type with
   | Option.none => true
   | some s => acc.sdk_type == s)

/-- `OlivOSConfigManager.remove_account`: filter out every matching record,
persist only when the collection shrank, return whether any removal
occurred.  The second component is the persisted collection as the caller
observes it afterwards. -/
def remove_account (accounts : List Account) (account_id : AccId)
    (sdk_type : Option String) : Bool × List Account :=
  let kept := accounts.filter (fun acc => !(removeMatch account_id sdk_type acc))
  if kept.length < accounts.length then (true, kept) else (false, accounts)

/-- `OlivOSConfigManager.get_account`: first record whose `str(id)` equals
`str(account_id)`, else `None`. -/
def get_account (accounts : List Account) (account_id : AccId) : Option Account :=
  accounts.find? (fun acc => acc.id.pyStr == account_id.pyStr)

/-! ## Concrete records and specs used in witnesses and counterexamples -/

/-- A small adapter spec whose shape matches the telegram/dingtalk entries. -/
def smallCfg : AdapterConfig :=
  { name := "t", key := "t", platform_type := "t", sdk_type := "t",
    required_fields := ["id", "server.access_token"] }

def accountA : Account :=
  { id := .str "1", password := "x", sdk_type := "onebot", platform_type := "qq" }

/-- Same (id, platform, sdk, model) as `accountA`, different password. -/
def accountA2 : Account :=
  { id := .str "1", password := "y", sdk_type := "onebot", platform_type := "qq" }

/-- Differs from `accountA` in `id` only. -/
def accountB : Account :=
  { id := .str "2", password := "x", sdk_type := "onebot", platform_type := "qq" }

def account42 : Account :=
  { id := .str "42", password := "", sdk_type := "onebot", platform_type := "qq" }

/-- Two distinct specs sharing the (platform, sdk, model) composite key. -/
def dupSpecA : AdapterConfig :=
  { name := "A", key := "a", platform_type := "p", sdk_type := "s", model_type := "m" }

def dupSpecB : AdapterConfig :=
  { name := "B", key := "b", platform_type := "p", sdk_type := "s", model_type := "m" }

/-! ## Helper lemmas -/

/-- A filter is shorter than its input exactly when some element fails the
predicate. -/
theorem length_filter_lt_iff {α : Type} (p : α → Bool) :
    ∀ l : List α, ((l.filter p).length < l.length) ↔ ∃ x ∈ l, p x = false := by
  intro l
  induction l with
  | nil => simp
  | cons a l ih =>
      cases h : p a
      · simp only [List.filter_cons, h, if_neg Bool.false_ne_true, List.length_cons]
        constructor
        · intro _
          exact ⟨a, by simp, h⟩
        · intro _
          exact Nat.lt_succ_of_le (List.length_filter_le _ _)
      · simp [List.filter_cons, h, Nat.succ_lt_succ_iff, ih]

/-- `remove_account` written as an explicit pair: the flag records whether
the filtered collection shrank, the collection is the filtered one exactly
when it did. -/
theorem remove_pair (accounts : List Account) (qid : AccId) (sdk' : Option String) :
    remove_account accounts qid sdk'
      = (decide ((accounts.filter (fun acc => !(removeMatch qid sdk' acc))).length
            < accounts.length),
         if (accounts.filter (fun acc => !(removeMatch qid sdk' acc))).length
              < accounts.length
         then accounts.filter (fun acc => !(removeMatch qid sdk' acc)) else accounts) := by
  unfold remove_account
  by_cases h : (accounts.filter (fun acc => !(removeMatch qid sdk' acc))).length
      < accounts.length
  · simp [h]
  · simp [h]

/-! ## Claim theorems -/

/-- C1 (counterexample): validating the record `{id: ""}` against the
`dingtalk` spec (`requiredFields = ["id"]`, `optionalFields = []`) yields
`valid = true`, **no** errors and the warning `"字段 id 建议填写"` — the
present-but-empty required field does not produce the error
`"missing required field: id"` the claim asserts. -/
theorem required_present_empty_no_error_cx :
    validate_account_config [("id", .str "")] (some "dingtalk")
    = ([("id", .str ""), ("model_type", .str "default")],
       .ok { valid := true, errors := [], warnings := ["字段 id 建议填写"] }) := rfl

/-- C1 (amended): for a single-component required path that is present with
an empty-string value, `_validate_with_adapter` emits the warning
`"字段 <path> 建议填写"` when the path is not in `optionalFields`, and emits
nothing at all when it is — never the error the original claim states. -/
theorem required_present_empty_warns (data : List (String × PyVal))
    (adapter : AdapterConfig) (f : String) (r : ValidationResult)
    (hdot : strContains f "." = false)
    (hv : data.lookup f = some (.str "")) :
    checkRequiredField data adapter f r
      = .ok (if adapter.optional_fields.contains f then r
             else r.add_warning ("字段 " ++ f ++ " 建议填写")) := by
  unfold checkRequiredField
  rw [hdot, hv]
  cases h : adapter.optional_fields.contains f <;>
    simp [h, pyEqStr, Pure.pure, Except.pure]

/-- C1 witness: the amended statement at the concrete empty `id` record. -/
theorem required_present_empty_warns_witness :
    strContains "id" "." = false ∧
    ([("id", PyVal.str "")] : List (String × PyVal)).lookup "id" = some (.str "") ∧
    checkRequiredField [("id", PyVal.str "")] smallCfg "id" { valid := true }
      = .ok (({ valid := true } : ValidationResult).add_warning "字段 id 建议填写") := by
  refine ⟨rfl, rfl, ?_⟩
  have h := required_present_empty_warns [("id", PyVal.str "")] smallCfg "id"
    { valid := true } rfl rfl
  simpa [smallCfg] using h

/-- C2: validating a sandbox-model record with `server.port` unset (here the
whole `server` block is absent) against the catalog spec `"mhyVila"` returns
`valid = true` with **no** errors: the special sandbox rule in
`_validate_special_rules` compares `adapter.key` against the lowercase
`"mhyvila"`, which no catalog key ever equals, so the rule never fires —
contrary to the claim that this yields `valid = false` with an error
mentioning `server.port`. -/
theorem mhyVila_sandbox_rule_dead_eval :
    validate_account_config
      [("id", .str "x"), ("password", .str "p"), ("model_type", .str "sandbox")]
      (some "mhyVila")
    = ([("id", .str "x"), ("password", .str "p"), ("model_type", .str "sandbox")],
       .ok { valid := true, errors := [], warnings := [] }) := rfl

/-- C3: validating `{id: "mybot", server: {access_token: "abc"}}` against
the telegram spec raises `TypeError` instead of returning
`valid = true` with one warning: the required-field walk descends into the
leaf value `"abc"` and then evaluates `obj[parts[-1]]`, a string
subscription with a string key. -/
theorem telegram_scenario_raises_eval :
    validate_account_config
      [("id", .str "mybot"), ("server", .dict [("access_token", .str "abc")])]
      (some "telegram")
    = ([("id", .str "mybot"), ("server", .dict [("access_token", .str "abc")]),
        ("model_type", .str "default")],
       .error .typeError) := rfl

/-- C4 (counterexample): validating `{id: "x"}` against the telegram spec —
whose required path `server.access_token` has its intermediate component
`server` absent — yields `valid = true` and **no** errors (only the
telegram warning), not the `"missing required field"` error the claim
asserts. -/
theorem dotted_missing_intermediate_no_error_cx :
    validate_account_config [("id", .str "x")] (some "telegram")
    = ([("id", .str "x"), ("model_type", .str "default")],
       .ok { valid := true, errors := [],
             warnings := ["Telegram token 格式通常为 id:token"] }) := rfl

/-- C4 (amended): when the first component of a dotted required path is
absent and is not the final component, the walk stops silently — no error
is emitted and the result is returned unchanged. -/
theorem dotted_missing_intermediate_silent (data : List (String × PyVal))
    (adapter : AdapterConfig) (f : String) (r : ValidationResult)
    (p : String) (rest : List String)
    (hdot : strContains f "." = true)
    (hsplit : pySplitOnChar f '.' = p :: rest)
    (hrest : rest ≠ [])
    (hp : data.lookup p = Option.none) :
    checkRequiredField data adapter f r = .ok r := by
  unfold checkRequiredField
  rw [hdot, hsplit]
  cases rest with
  | nil => exact absurd rfl hrest
  | cons q qs =>
      simp [walkLoop, pyContains, dictContainsKey, hp, Bind.bind, Except.bind,
        pure, Except.pure]

/-- C4 witness: the amended statement at the concrete record `{id: "x"}`
and the path `server.access_token`. -/
theorem dotted_missing_intermediate_silent_witness :
    strContains "server.access_token" "." = true ∧
    pySplitOnChar "server.access_token" '.' = "server" :: ["access_token"] ∧
    (["access_token"] : List String) ≠ [] ∧
    ([("id", PyVal.str "x")] : List (String × PyVal)).lookup "server" = Option.none ∧
    checkRequiredField [("id", PyVal.str "x")] smallCfg "server.access_token"
      { valid := true } = .ok { valid := true } := by
  refine ⟨rfl, rfl, by simp, rfl, ?_⟩
  exact dotted_missing_intermediate_silent _ _ _ _ "server" ["access_token"]
    rfl rfl (by simp) rfl

/-- C5: `add_account` fails with the duplicate-account error exactly when
some existing record agrees with the candidate on `str(id)`, `platform_type`,
`sdk_type` and `model_type`; otherwise the collection persisted is the old
one with the new record appended last. -/
theorem add_account_spec (accounts : List Account) (a : Account) :
    ((∃ m, add_account accounts a = .error m) ↔ ∃ e ∈ accounts, isConflict e a = true)
    ∧ ((∀ e ∈ accounts, isConflict e a = false)
        → add_account accounts a = .ok (accounts ++ [a])) := by
  constructor
  · constructor
    · rintro ⟨m, hm⟩
      by_cases h : accounts.any (fun e => isConflict e a) = true
      · simpa [List.any_eq_true] using h
      · simp [add_account, h] at hm
    · rintro ⟨e, he, hc⟩
      have h : accounts.any (fun ex => isConflict ex a) = true :=
        List.any_eq_true.mpr ⟨e, he, hc⟩
      simp only [add_account, h, if_true]
      exact ⟨_, rfl⟩
  · intro hall
    have h : accounts.any (fun ex => isConflict ex a) = false := by
      rw [List.any_eq_false]
      intro e he
      simp [hall e he]
    simp [add_account, h]

/-- C5 witness: a record differing only in `password` is rejected; changing
`id` makes the add succeed and append at the end. -/
theorem add_account_spec_witness :
    (∃ m, add_account [accountA] accountA2 = .error m)
    ∧ add_account [accountA] accountB = .ok [accountA, accountB] := by
  constructor
  · exact (add_account_spec [accountA] accountA2).1.mpr ⟨accountA, by simp, rfl⟩
  · refine (add_account_spec [accountA] accountB).2 ?_
    intro e he
    simp at he
    subst he
    rfl

/-- C6: resolving each catalog spec by its own (platform, sdk, model)
triple returns that exact spec — the composite-key round trip holds for
all 17 catalog entries. -/
theorem resolve_roundtrip : ∀ p ∈ ALL_ADAPTERS,
    get_adapter_by_platform_sdk p.2.platform_type p.2.sdk_type p.2.model_type
      = some p.2 := by
  decide

/-- C6 witness: the round trip at the first catalog entry. -/
theorem resolve_roundtrip_witness :
    ∃ p, p ∈ ALL_ADAPTERS ∧
      get_adapter_by_platform_sdk p.2.platform_type p.2.sdk_type p.2.model_type
        = some p.2 := by
  have hm := List.get_mem ALL_ADAPTERS 0 (by decide)
  exact ⟨_, hm, resolve_roundtrip _ hm⟩

/-- C7 (amended): no two specs of the shipped catalog share the same
(platform, sdk, model) triple.  (The claimed construction-time rejection of
duplicate composite keys does not exist — see the counterexample.) -/
theorem catalog_triples_distinct :
    (ALL_ADAPTERS.map
      (fun p => (p.2.platform_type, p.2.sdk_type, p.2.model_type))).Nodup := by
  decide

/-- C7 (counterexample): a catalog of two distinct specs sharing one
composite key is constructed without any failure — Python dict-literal
semantics keep both entries (their dict keys differ) — and composite-key
resolution silently returns the first match instead of rejecting the
catalog. -/
theorem duplicate_triple_construction_succeeds :
    pyDictLit [("a", dupSpecA), ("b", dupSpecB)] = [("a", dupSpecA), ("b", dupSpecB)]
    ∧ findByTriple (pyDictLit [("a", dupSpecA), ("b", dupSpecB)])
        (.str "p") (.str "s") (.str "m") = some dupSpecA
    ∧ dupSpecA ≠ dupSpecB := ⟨rfl, rfl, by decide⟩

/-- C8: `remove_account` drops exactly the records whose `str(id)` matches
the query (restricted to the given `sdk_type` when one is supplied), the
persisted collection is that filter, the returned flag is true iff some
record matched, and a `get_account` for the same id after an unrestricted
removal finds nothing. -/
theorem remove_account_spec (accounts : List Account) (qid : AccId) (sdk : Option String) :
    ((remove_account accounts qid sdk).1 = true
        ↔ ∃ acc ∈ accounts, removeMatch qid sdk acc = true)
    ∧ (remove_account accounts qid sdk).2
        = accounts.filter (fun acc => !(removeMatch qid sdk acc))
    ∧ get_account (remove_account accounts qid Option.none).2 qid = Option.none := by
  have hfilter : ∀ sdk' : Option String,
      (remove_account accounts qid sdk').2
        = accounts.filter (fun acc => !(removeMatch qid sdk' acc)) := by
    intro sdk'
    rw [remove_pair]
    by_cases h : (accounts.filter (fun acc => !(removeMatch qid sdk' acc))).length
        < accounts.length
    · rw [if_pos h]
    · rw [if_neg h]
      have hall : ∀ x ∈ accounts, (!(removeMatch qid sdk' x)) = true := by
        intro x hx
        by_contra hc
        exact h ((length_filter_lt_iff _ accounts).mpr ⟨x, hx, by simpa using hc⟩)
      exact (List.filter_eq_self.mpr hall).symm
  refine ⟨?_, hfilter sdk, ?_⟩
  · rw [remove_pair]
    simp only [decide_eq_true_eq]
    rw [length_filter_lt_iff]
    simp
  · rw [hfilter Option.none]
    unfold get_account
    rw [List.find?_eq_none]
    intro x hx
    rw [List.mem_filter] at hx
    obtain ⟨-, hpx⟩ := hx
    simp [removeMatch] at hpx
    simpa using hpx

/-- C8 witness: removing id `"42"` from a one-record store succeeds and a
subsequent `get_account "42"` returns nothing. -/
theorem remove_account_spec_witness :
    (remove_account [account42] (.str "42") Option.none).1 = true
    ∧ get_account (remove_account [account42] (.str "42") Option.none).2 (.str "42")
        = Option.none := by
  constructor
  · exact (remove_account_spec [account42] (.str "42") Option.none).1.mpr
      ⟨account42, by simp, rfl⟩
  · exact (remove_account_spec [account42] (.str "42") Option.none).2.2

/-- C9: `validate_account_config` mutates its argument — when the record
has no `model_type` key, the caller's dict afterwards carries the appended
entry `model_type = "default"` and is no longer the original dict. -/
theorem validate_adds_default_model_type (data : List (String × PyVal))
    (key : Option String)
    (h : data.lookup "model_type" = Option.none) :
    (validate_account_config data key).1 = data ++ [("model_type", .str "default")]
    ∧ (validate_account_config data key).1 ≠ data := by
  have h1 : (validate_account_config data key).1
      = data ++ [("model_type", PyVal.str "default")] := by
    simp [validate_account_config, dictContainsKey, h]
  refine ⟨h1, ?_⟩
  rw [h1]
  intro heq
  have hlen := congrArg List.length heq
  simp at hlen

/-- C9 witness: the frame effect at the record `{id: "1"}`. -/
theorem validate_adds_default_model_type_witness :
    ([("id", PyVal.str "1")] : List (String × PyVal)).lookup "model_type" = Option.none
    ∧ (validate_account_config [("id", .str "1")] Option.none).1
        = [("id", .str "1"), ("model_type", .str "default")]
    ∧ (validate_account_config [("id", .str "1")] Option.none).1 ≠ [("id", .str "1")] := by
  refine ⟨rfl, ?_, ?_⟩
  · exact (validate_adds_default_model_type [("id", .str "1")] Option.none rfl).1
  · exact (validate_adds_default_model_type [("id", .str "1")] Option.none rfl).2

/-- C10: when a non-empty adapter key resolves in the catalog, the verdict
of `validate_account_config` is exactly `_validate_with_adapter` on the
(model_type-defaulted) record — the base errors recorded beforehand are
discarded; in particular `{id: "123"}` with key `"dingtalk"` is `valid`
although `platform_type` and `sdk_type` are absent. -/
theorem explicit_adapter_key_discards_base_errors (data : List (String × PyVal))
    (k : String) (adapter : AdapterConfig)
    (hk : (k == "") = false)
    (ha : get_adapter_config k = some adapter) :
    (validate_account_config data (some k)).2
      = validate_with_adapter
          (if dictContainsKey data "model_type" then data
           else data ++ [("model_type", .str "default")]) adapter
    ∧ (validate_account_config [("id", .str "123")] (some "dingtalk")).2
      = .ok { valid := true, errors := [], warnings := [] } := by
  refine ⟨?_, rfl⟩
  simp [validate_account_config, hk, ha]

/-- C10 witness: the discard property at the record `{platform_type: "zzz"}`
with the explicit key `"dingtalk"`. -/
theorem explicit_adapter_key_discards_base_errors_witness :
    ("dingtalk" == "") = false
    ∧ ∃ a, get_adapter_config "dingtalk" = some a
        ∧ (validate_account_config [("platform_type", PyVal.str "zzz")]
              (some "dingtalk")).2
          = validate_with_adapter
              [("platform_type", PyVal.str "zzz"), ("model_type", PyVal.str "default")] a := by
  refine ⟨rfl, ?_⟩
  refine ⟨_, rfl, ?_⟩
  have h := (explicit_adapter_key_discards_base_errors
    [("platform_type", PyVal.str "zzz")] "dingtalk" _ rfl rfl).1
  simpa [dictContainsKey] using h
